import Mathlib

/-!
Verification of the snack-dispenser decision-and-control core against its
Python sources.  Each definition is a shallow embedding of one function of
the repository; machine floats are modelled as rationals and GPIO side
effects as explicit event traces over a pin-state record.
-/

set_option linter.unusedVariables false

/-- GPIO logic level (`RPi.GPIO` HIGH/LOW). -/
inductive Level
  | high
  | low
deriving DecidableEq, Repr

/-- One observable side effect of the motor code: a write to the step pin,
a write to the enable pin, a write to the direction pin, or a `time.sleep`
of the given number of seconds. -/
inductive Ev
  | setStep (l : Level)
  | setEn (l : Level)
  | setDir (l : Level)
  | sleep (d : ℚ)
deriving DecidableEq, Repr

/-- The pin state of the motor driver: levels of the enable, step and
direction pins set up by `setup_gpio` (en HIGH = driver disabled). -/
structure MotorState where
  en : Level
  stepPin : Level
  dirPin : Level
deriving DecidableEq, Repr

/-- Effect of one event on the pin state (`GPIO.output`; sleeping does not
change any pin). -/
def applyEv (s : MotorState) : Ev → MotorState
  | Ev.setEn l => { s with en := l }
  | Ev.setStep l => { s with stepPin := l }
  | Ev.setDir l => { s with dirPin := l }
  | Ev.sleep _ => s

/-- Run a list of events in order; `f = some k` means an exception is
raised just before the k-th event executes (modelling a failure anywhere
in the sequence), `f = none` means the whole sequence succeeds.  Returns
the final pin state and whether an exception was raised. -/
def runEvs : Option Nat → MotorState → List Ev → MotorState × Bool
  | _, s, [] => (s, false)
  | some 0, s, _ :: _ => (s, true)
  | some (n + 1), s, e :: rest => runEvs (some n) (applyEv s e) rest
  | none, s, e :: rest => runEvs none (applyEv s e) rest

namespace MotorController

/-- `src/src/motor/control.py` line 63: the delay between half-pulses,
`delay_per_step = 60.0 / (rpm * steps_per_rev)`. -/
def delay_per_step (rpm steps_per_rev : ℚ) : ℚ :=
  60 / (rpm * steps_per_rev)

/-- The body of the `for _ in range(steps)` loop of `MotorController.step`:
step pin HIGH, sleep `delay`, step pin LOW, sleep `delay`, repeated. -/
def stepLoop (d : ℚ) : Nat → List Ev
  | 0 => []
  | n + 1 => Ev.setStep Level.high :: Ev.sleep d :: Ev.setStep Level.low :: Ev.sleep d ::
      stepLoop d n

/-- `MotorController.step` (src/src/motor/control.py lines 55-69) as the
event trace it emits. -/
def step (steps : Nat) (rpm : ℚ := 30) (steps_per_rev : ℚ := 200) : List Ev :=
  stepLoop (delay_per_step rpm steps_per_rev) steps

/-- `MotorController.enable_motor`: enable pin LOW then a 0.05 s settle. -/
def enable_motor : List Ev := [Ev.setEn Level.low, Ev.sleep (5 / 100)]

/-- The inter-portion part of `dispense`: 200 steps then a 0.5 s pause,
repeated `amount` times (`for _ in range(amount)` at lines 85-87). -/
def dispenseLoop : Nat → List Ev
  | 0 => []
  | n + 1 => (step 200 ++ [Ev.sleep (1 / 2)]) ++ dispenseLoop n

/-- The event sequence attempted inside the `try` block of
`MotorController.dispense` (lines 77-89). -/
def dispenseBody (amount : Nat) : List Ev :=
  enable_motor ++ dispenseLoop amount

/-- `MotorController.dispense` (src/src/motor/control.py lines 71-94):
run the try-block events, where `f` chooses the point (if any) at which an
exception interrupts them; the `except Exception` clause only logs, and
the `finally` clause always executes `disable_motor` (enable pin HIGH). -/
def dispense (f : Option Nat) (amount : Nat) (s : MotorState) : MotorState :=
  let r := runEvs f s (dispenseBody amount)
  applyEv r.1 (Ev.setEn Level.high)

end MotorController

namespace HopperController

/-- `HopperController.step` (src/src/motor/hopper_controller.py lines
60-67): identical pulse loop, `delay = 60.0 / (rpm * steps_per_rev)`. -/
def step (steps : Nat) (rpm : ℚ := 30) (steps_per_rev : ℚ := 200) : List Ev :=
  MotorController.stepLoop (60 / (rpm * steps_per_rev)) steps

/-- Body of the `try` block of `HopperController.dispense` (lines 69-78):
enable (LOW + 0.05 s settle), then per portion 200 steps and a 0.5 s
pause. -/
def dispenseBody (portions : Nat) : List Ev :=
  [Ev.setEn Level.low, Ev.sleep (5 / 100)] ++
    (List.range portions).foldr (fun _ acc => (step 200 ++ [Ev.sleep (1 / 2)]) ++ acc) []

/-- `HopperController.dispense` (lines 69-82): try the body, `except`
merely logs, `finally` drives the enable pin HIGH via `disable_motor`. -/
def dispense (f : Option Nat) (portions : Nat) (s : MotorState) : MotorState :=
  let r := runEvs f s (dispenseBody portions)
  applyEv r.1 (Ev.setEn Level.high)

end HopperController

/-- **C1.** Every invocation of the actuator dispense operation — whether
all step pulses complete (`f = none`) or an exception interrupts the pulse
sequence at any point (`f = some k`) — returns with the motor driver
disabled: the enable pin is HIGH on every execution path of both
`MotorController.dispense` and `HopperController.dispense`. -/
theorem dispense_always_disables (f : Option Nat) (amount : Nat) (s : MotorState) :
    (MotorController.dispense f amount s).en = Level.high ∧
    (HopperController.dispense f amount s).en = Level.high := by
  constructor <;> rfl

/-- **C9.** The stepping routine computes the half-pulse delay as exactly
`60 / (rpm * steps_per_rev)` seconds (so rpm = 30 with steps_per_rev = 200
gives 0.01 s), and the trace of `step steps` is exactly `steps` pulses,
each being step-pin HIGH, sleep `delay`, step-pin LOW, sleep `delay`. -/
theorem step_delay_and_pulse_shape :
    (∀ rpm steps_per_rev : ℚ,
      MotorController.delay_per_step rpm steps_per_rev = 60 / (rpm * steps_per_rev)) ∧
    MotorController.delay_per_step 30 200 = 1 / 100 ∧
    (∀ (steps : Nat) (rpm steps_per_rev : ℚ),
      MotorController.step steps rpm steps_per_rev =
        (List.replicate steps
          [Ev.setStep Level.high,
           Ev.sleep (MotorController.delay_per_step rpm steps_per_rev),
           Ev.setStep Level.low,
           Ev.sleep (MotorController.delay_per_step rpm steps_per_rev)]).flatten) := by
  refine ⟨fun _ _ => rfl, by norm_num [MotorController.delay_per_step], ?_⟩
  intro steps rpm spr
  induction steps with
  | zero => rfl
  | succ n ih =>
      simp only [MotorController.step, MotorController.stepLoop, List.replicate_succ,
        List.flatten_cons] at *
      simp [ih]

namespace BowlStateDetector

/-- The mutable estimator fields set up in `BowlStateDetector.__init__`
(src/src/vision/predict.py lines 35-37) together with the configured
`required_consecutive_changes` (line 62): `last_state = None`,
`state_confidence = 0.0`, `consecutive_opposite_predictions = 0`. -/
structure State where
  last_state : Option Bool
  state_confidence : ℚ
  consecutive_opposite_predictions : Nat
  required_consecutive_changes : Nat
deriving DecidableEq, Repr

/-- The estimator state right after `__init__` for a configured
`required_consecutive_changes`. -/
def initState (req : Nat) : State :=
  { last_state := none, state_confidence := 0, consecutive_opposite_predictions := 0,
    required_consecutive_changes := req }

/-- The sample-collection loop of `is_bowl_empty` (lines 140-144): one
entry per `predict_single_frame` call, `none` when capture/preprocess/
inference failed (the function then returned `(None, 0.0)`), `some b` with
its confidence otherwise; only non-`None` predictions are appended. -/
def collectSamples (frames : List (Option Bool × ℚ)) : List (Bool × ℚ) :=
  frames.filterMap fun fr => fr.1.map fun b => (b, fr.2)

/-- The state-transition logic of `is_bowl_empty` (lines 153-168), applied
to the majority vote `current_empty` and `avg_confidence` of a burst:
adopt the first observation immediately; afterwards an agreeing vote
resets `consecutive_opposite_predictions` to 0, a disagreeing one
increments it, and when it reaches `required_consecutive_changes` the
state flips, adopts the new confidence and the streak resets to 0. -/
def stateTransition (d : State) (current_empty : Bool) (avg_confidence : ℚ) :
    State × Bool × ℚ :=
  match d.last_state with
  | none =>
      ({ d with last_state := some current_empty, state_confidence := avg_confidence },
        current_empty, avg_confidence)
  | some last =>
      if current_empty ≠ last then
        if d.consecutive_opposite_predictions + 1 ≥ d.required_consecutive_changes then
          ({ d with last_state := some current_empty,
                    state_confidence := avg_confidence,
                    consecutive_opposite_predictions := 0 },
            current_empty, avg_confidence)
        else
          ({ d with consecutive_opposite_predictions := d.consecutive_opposite_predictions + 1 },
            last, d.state_confidence)
      else
        ({ d with consecutive_opposite_predictions := 0 }, last, d.state_confidence)

/-- `BowlStateDetector.is_bowl_empty` (lines 131-168): collect per-frame
results, fall back to `(last_state or False, 0.0)` when no sample was
obtained, otherwise take the strict majority (`sum(predictions) >
len(predictions)/2`), average the confidences, and run the debounce
transition.  Returns the new estimator state and the returned pair. -/
def is_bowl_empty (d : State) (frames : List (Option Bool × ℚ)) :
    State × Bool × ℚ :=
  let samples := collectSamples frames
  if samples.isEmpty then
    (d, d.last_state.getD false, 0)
  else
    let current_empty : Bool :=
      decide (((samples.countP fun s => s.1 : Nat) : ℚ) > (samples.length : ℚ) / 2)
    let avg_confidence := ((samples.map Prod.snd).sum) / (samples.length : ℚ)
    stateTransition d current_empty avg_confidence

/-- Folding whole update cycles (one list of frame results per call of
`is_bowl_empty`) over the estimator state. -/
def runDetector (d : State) (bursts : List (List (Option Bool × ℚ))) : State :=
  bursts.foldl (fun s frames => (is_bowl_empty s frames).1) d

lemma collectSamples_all_none {frames : List (Option Bool × ℚ)}
    (h : ∀ fr ∈ frames, fr.1 = none) : collectSamples frames = [] := by
  induction frames with
  | nil => rfl
  | cons fr t ih =>
      have h1 := h fr (List.mem_cons_self fr t)
      simp only [collectSamples, List.filterMap_cons, h1, Option.map_none]
      exact ih fun x hx => h x (List.mem_cons_of_mem fr hx)

lemma collectSamples_filter (frames : List (Option Bool × ℚ)) :
    collectSamples (frames.filter fun fr => fr.1.isSome) = collectSamples frames := by
  induction frames with
  | nil => rfl
  | cons fr t ih =>
      rcases h : fr.1 with _ | b
      · simpa [collectSamples, List.filter_cons, List.filterMap_cons, h] using ih
      · simpa [collectSamples, List.filter_cons, List.filterMap_cons, h] using ih

end BowlStateDetector

/-- **C5.** When every capture or inference attempt of a burst failed, the
update returns the previous debounced value (`last_state or False`, hence
never `Empty` when no state was ever adopted) with confidence 0.0 and
leaves the whole estimator state unmodified; and failed attempts are
invisible — dropping them from the burst does not change the result, so
classifier errors never count as samples. -/
theorem no_sample_fallback_and_errors_skipped (d : BowlStateDetector.State)
    (frames : List (Option Bool × ℚ)) :
    ((∀ fr ∈ frames, fr.1 = none) →
      BowlStateDetector.is_bowl_empty d frames = (d, d.last_state.getD false, 0)) ∧
    BowlStateDetector.is_bowl_empty d frames =
      BowlStateDetector.is_bowl_empty d (frames.filter fun fr => fr.1.isSome) := by
  constructor
  · intro h
    simp [BowlStateDetector.is_bowl_empty, BowlStateDetector.collectSamples_all_none h]
  · simp [BowlStateDetector.is_bowl_empty, BowlStateDetector.collectSamples_filter]

/-- **C5 witness.** Concrete instance: a burst of two failed captures
from a state that had adopted `Full` returns `(False, 0.0)` and the state
is untouched. -/
theorem no_sample_fallback_witness :
    ((∀ fr ∈ [((none : Option Bool), (0 : ℚ)), (none, 0)], fr.1 = none) →
      BowlStateDetector.is_bowl_empty ⟨some false, 4/5, 1, 2⟩ [(none, 0), (none, 0)] =
        (⟨some false, 4/5, 1, 2⟩, (some false).getD false, 0)) ∧
    BowlStateDetector.is_bowl_empty ⟨some false, 4/5, 1, 2⟩ [(none, 0), (none, 0)] =
      BowlStateDetector.is_bowl_empty ⟨some false, 4/5, 1, 2⟩
        ([(none, 0), (none, 0)].filter fun fr => fr.1.isSome) :=
  no_sample_fallback_and_errors_skipped ⟨some false, 4/5, 1, 2⟩ [(none, 0), (none, 0)]

namespace BowlStateDetector

lemma stateTransition_some (d : State) (last vote : Bool) (avg : ℚ)
    (hlast : d.last_state = some last) :
    stateTransition d vote avg =
      if vote = last then
        ({ d with consecutive_opposite_predictions := 0 }, last, d.state_confidence)
      else if d.consecutive_opposite_predictions + 1 ≥ d.required_consecutive_changes then
        ({ d with last_state := some vote,
                  state_confidence := avg,
                  consecutive_opposite_predictions := 0 }, vote, avg)
      else
        ({ d with consecutive_opposite_predictions := d.consecutive_opposite_predictions + 1 },
          last, d.state_confidence) := by
  rcases d with ⟨ls, sc, cop, req⟩
  simp only [State.mk.injEq] at hlast ⊢
  subst hlast
  by_cases hv : vote = last <;> simp [stateTransition, hv]

lemma stateTransition_req (d : State) (vote : Bool) (avg : ℚ) :
    (stateTransition d vote avg).1.required_consecutive_changes =
      d.required_consecutive_changes := by
  rcases d with ⟨ls, sc, cop, req⟩
  rcases ls with _ | last <;> simp [stateTransition] <;> split_ifs <;> rfl

lemma stateTransition_isSome (d : State) (vote : Bool) (avg : ℚ) :
    ((stateTransition d vote avg).1.last_state).isSome := by
  rcases d with ⟨ls, sc, cop, req⟩
  rcases ls with _ | last <;> simp [stateTransition] <;> split_ifs <;> simp

lemma stateTransition_streak_lt (d : State) (vote : Bool) (avg : ℚ)
    (hreq : 1 ≤ d.required_consecutive_changes)
    (h : d.consecutive_opposite_predictions < d.required_consecutive_changes) :
    (stateTransition d vote avg).1.consecutive_opposite_predictions <
      d.required_consecutive_changes := by
  rcases d with ⟨ls, sc, cop, req⟩
  rcases ls with _ | last <;> simp only [stateTransition] <;> dsimp only at *
  · exact h
  · split_ifs <;> dsimp only <;> omega

lemma is_bowl_empty_req (d : State) (frames : List (Option Bool × ℚ)) :
    (is_bowl_empty d frames).1.required_consecutive_changes =
      d.required_consecutive_changes := by
  by_cases hs : (collectSamples frames).isEmpty = true
  · simp [is_bowl_empty, hs]
  · simp only [is_bowl_empty, hs, if_false]
    exact stateTransition_req ..

lemma is_bowl_empty_isSome (d : State) (frames : List (Option Bool × ℚ))
    (h : d.last_state.isSome) : ((is_bowl_empty d frames).1.last_state).isSome := by
  by_cases hs : (collectSamples frames).isEmpty = true
  · simpa [is_bowl_empty, hs] using h
  · simp only [is_bowl_empty, hs, if_false]
    exact stateTransition_isSome ..

lemma is_bowl_empty_streak_lt (d : State) (frames : List (Option Bool × ℚ))
    (hreq : 1 ≤ d.required_consecutive_changes)
    (h : d.consecutive_opposite_predictions < d.required_consecutive_changes) :
    (is_bowl_empty d frames).1.consecutive_opposite_predictions <
      d.required_consecutive_changes := by
  by_cases hs : (collectSamples frames).isEmpty = true
  · simpa [is_bowl_empty, hs] using h
  · simp only [is_bowl_empty, hs, if_false]
    exact stateTransition_streak_lt _ _ _ hreq h

lemma runDetector_inv (bursts : List (List (Option Bool × ℚ))) (d : State)
    (hreq : 1 ≤ d.required_consecutive_changes)
    (h : d.consecutive_opposite_predictions < d.required_consecutive_changes) :
    (runDetector d bursts).required_consecutive_changes = d.required_consecutive_changes ∧
    (runDetector d bursts).consecutive_opposite_predictions <
      d.required_consecutive_changes ∧
    (d.last_state.isSome → ((runDetector d bursts).last_state).isSome) := by
  induction bursts generalizing d with
  | nil => exact ⟨rfl, h, fun hs => hs⟩
  | cons frames rest ih =>
      have hr := is_bowl_empty_req d frames
      obtain ⟨i1, i2, i3⟩ := ih (is_bowl_empty d frames).1 (hr ▸ hreq)
        (hr ▸ is_bowl_empty_streak_lt d frames hreq h)
      refine ⟨by simpa [runDetector] using hr ▸ i1, ?_, ?_⟩
      · simpa [runDetector] using hr ▸ i2
      · intro hs
        simpa [runDetector] using i3 (is_bowl_empty_isSome d frames hs)

end BowlStateDetector

/-- **C2.** Debounce behaviour of one update after a state was adopted,
given the streak invariant (`consecutive_opposite_predictions <
required_consecutive_changes`, established in C10): the debounced value
flips exactly when the incoming majority vote disagrees and the streak
reaches the threshold (so a flip takes exactly
`required_consecutive_changes` consecutive disagreeing votes); an
agreeing vote resets the streak to 0 and keeps the value; a disagreeing
vote below threshold only increments the streak; and at the flip the
streak resets to 0. -/
theorem debounce_flip_characterization (d : BowlStateDetector.State) (last vote : Bool)
    (avg : ℚ) (hlast : d.last_state = some last)
    (hinv : d.consecutive_opposite_predictions < d.required_consecutive_changes) :
    (((BowlStateDetector.stateTransition d vote avg).1.last_state ≠ some last) ↔
      (vote ≠ last ∧
        d.consecutive_opposite_predictions + 1 = d.required_consecutive_changes)) ∧
    (vote = last →
      (BowlStateDetector.stateTransition d vote avg).1.consecutive_opposite_predictions = 0 ∧
      (BowlStateDetector.stateTransition d vote avg).1.last_state = some last) ∧
    (vote ≠ last → d.consecutive_opposite_predictions + 1 < d.required_consecutive_changes →
      (BowlStateDetector.stateTransition d vote avg).1.consecutive_opposite_predictions =
          d.consecutive_opposite_predictions + 1 ∧
      (BowlStateDetector.stateTransition d vote avg).1.last_state = some last) ∧
    (vote ≠ last → d.consecutive_opposite_predictions + 1 = d.required_consecutive_changes →
      (BowlStateDetector.stateTransition d vote avg).1.last_state = some vote ∧
      (BowlStateDetector.stateTransition d vote avg).1.consecutive_opposite_predictions = 0) := by
  rw [BowlStateDetector.stateTransition_some d last vote avg hlast]
  by_cases hv : vote = last
  · subst hv
    simp [hlast]
  · by_cases hs : d.consecutive_opposite_predictions + 1 ≥ d.required_consecutive_changes
    · have heq : d.consecutive_opposite_predictions + 1 = d.required_consecutive_changes := by
        omega
      simp [hv, hs, hlast, heq, Ne.symm hv]
    · simp [hv, hs, hlast]
      omega

/-- **C2 witness.** Concrete instance: state `Full` adopted, streak 1 of
required 2, a disagreeing `Empty` vote arrives — the value flips to
`Empty` and the streak resets to 0. -/
theorem debounce_flip_witness :
    (((BowlStateDetector.stateTransition ⟨some false, 1/2, 1, 2⟩ true (3/4)).1.last_state ≠
        some false) ↔ (true ≠ false ∧ 1 + 1 = 2)) ∧
    (true = false →
      (BowlStateDetector.stateTransition ⟨some false, 1/2, 1, 2⟩ true
          (3/4)).1.consecutive_opposite_predictions = 0 ∧
      (BowlStateDetector.stateTransition ⟨some false, 1/2, 1, 2⟩ true (3/4)).1.last_state =
        some false) ∧
    (true ≠ false → 1 + 1 < 2 →
      (BowlStateDetector.stateTransition ⟨some false, 1/2, 1, 2⟩ true
          (3/4)).1.consecutive_opposite_predictions = 1 + 1 ∧
      (BowlStateDetector.stateTransition ⟨some false, 1/2, 1, 2⟩ true (3/4)).1.last_state =
        some false) ∧
    (true ≠ false → 1 + 1 = 2 →
      (BowlStateDetector.stateTransition ⟨some false, 1/2, 1, 2⟩ true (3/4)).1.last_state =
        some true ∧
      (BowlStateDetector.stateTransition ⟨some false, 1/2, 1, 2⟩ true
          (3/4)).1.consecutive_opposite_predictions = 0) :=
  debounce_flip_characterization ⟨some false, 1/2, 1, 2⟩ false true (3/4) rfl
    (by decide)

/-- **C10.** Implicit estimator invariant: starting from the `__init__`
state with `required_consecutive_changes ≥ 1`, after any sequence of
update calls the opposite-prediction streak is strictly below the
threshold (it is a `Nat`, so `0 ≤ streak` holds by type), and once a
first state has been adopted no further sequence of updates ever returns
the estimator to the unknown (`None`) state. -/
theorem streak_invariant_and_no_unknown (req : Nat) (hreq : 1 ≤ req)
    (bursts bursts2 : List (List (Option Bool × ℚ))) :
    (BowlStateDetector.runDetector (BowlStateDetector.initState req)
        bursts).consecutive_opposite_predictions < req ∧
    (((BowlStateDetector.runDetector (BowlStateDetector.initState req)
        bursts).last_state).isSome →
      ((BowlStateDetector.runDetector
          (BowlStateDetector.runDetector (BowlStateDetector.initState req) bursts)
          bursts2).last_state).isSome) := by
  obtain ⟨h1, h2, _⟩ := BowlStateDetector.runDetector_inv bursts
    (BowlStateDetector.initState req) hreq hreq
  refine ⟨h2, fun hs => ?_⟩
  obtain ⟨_, _, h3⟩ := BowlStateDetector.runDetector_inv bursts2
    (BowlStateDetector.runDetector (BowlStateDetector.initState req) bursts)
    (h1 ▸ hreq) (h1 ▸ h2)
  exact h3 hs

/-- **C10 witness.** Concrete instance with `required_consecutive_changes
= 2`: after one burst adopting `Empty` and a later disagreeing burst, the
streak stays below 2 and the state remains known. -/
theorem streak_invariant_witness :
    (BowlStateDetector.runDetector (BowlStateDetector.initState 2)
        [[(some true, 9/10)]]).consecutive_opposite_predictions < 2 ∧
    (((BowlStateDetector.runDetector (BowlStateDetector.initState 2)
        [[(some true, 9/10)]]).last_state).isSome →
      ((BowlStateDetector.runDetector
          (BowlStateDetector.runDetector (BowlStateDetector.initState 2) [[(some true, 9/10)]])
          [[(some false, 1/2)]]).last_state).isSome) :=
  streak_invariant_and_no_unknown 2 (by decide) [[(some true, 9/10)]] [[(some false, 1/2)]]

namespace SnackBotComponent

/-- The scheduler-relevant fields of `SnackBotComponent` (src/src/app/
main.py lines 33-48): cooldown bookkeeping, confidence threshold,
consecutive-empty confirmation counter and the mutual-exclusion flag. -/
structure SBState where
  last_dispense_time : ℚ
  min_dispense_interval : ℚ
  confidence_threshold : ℚ
  consecutive_empty_required : Nat
  consecutive_empty_count : Nat
  is_dispensing : Bool
deriving DecidableEq, Repr

/-- `SnackBotComponent.should_dispense` (src/src/app/main.py lines
97-112): return `False` at once if the cooldown has not elapsed (the
counter is then left untouched); otherwise increment the
consecutive-empty counter when the reading is empty with confidence
strictly above the threshold, reset it to 0 otherwise, and permit iff the
updated counter has reached `consecutive_empty_required`.  Returns the
updated component state and the decision. -/
def should_dispense (s : SBState) (is_empty : Bool) (confidence : ℚ)
    (current_time : ℚ) : SBState × Bool :=
  if current_time - s.last_dispense_time < s.min_dispense_interval then
    (s, false)
  else
    let s' :=
      if is_empty && decide (confidence > s.confidence_threshold) then
        { s with consecutive_empty_count := s.consecutive_empty_count + 1 }
      else
        { s with consecutive_empty_count := 0 }
    (s', decide (s'.consecutive_empty_count ≥ s.consecutive_empty_required))

/-- `SnackBotComponent.dispense_snack` (src/src/app/main.py lines
114-143), restricted to its effect on the scheduler state: return
immediately if a dispense is already in progress; otherwise dispense,
set `last_dispense_time` to the completion time, reset the
consecutive-empty counter, and clear `is_dispensing` in the `finally`
clause. -/
def dispense_snack (s : SBState) (now : ℚ) : SBState :=
  if s.is_dispensing then s
  else
    { s with last_dispense_time := now, consecutive_empty_count := 0,
             is_dispensing := false }

end SnackBotComponent

namespace AwsMain

/-- The dispense gate of the aws component main loop (src/aws/main.py
lines 73-79): dispense iff the bowl is empty, the confidence is at least
the detector threshold, and the cooldown interval has elapsed. -/
def dispenseGate (is_empty : Bool) (confidence confidence_threshold
    now last_dispense_time min_dispense_interval : ℚ) : Bool :=
  is_empty && decide (confidence ≥ confidence_threshold) &&
    decide (now - last_dispense_time ≥ min_dispense_interval)

end AwsMain

/-- **C3 counterexample.** With the bowl Empty, confidence exactly equal
to the threshold (0.7 ≥ 0.7), no dispense in progress, the cooldown long
elapsed (100 − 0 ≥ 30) and the confirmation counter (5) far above its
requirement (2), every condition of the claim holds — yet
`should_dispense` returns `false`, because the code demands confidence
strictly greater than the threshold and resets the counter. -/
theorem should_dispense_iff_counterexample :
    (SnackBotComponent.should_dispense ⟨0, 30, 7/10, 2, 5, false⟩ true (7/10) 100).2 = false ∧
    ((7 : ℚ)/10 ≥ 7/10 ∧ (100 : ℚ) - 0 ≥ 30 ∧ (5 : Nat) ≥ 2) := by
  refine ⟨?_, by norm_num⟩
  norm_num [SnackBotComponent.should_dispense]

/-- **C3 amended.** In the Greengrass component, `should_dispense`
returns true iff the cooldown has elapsed AND the updated
consecutive-empty counter — incremented only when the reading is Empty
with confidence strictly greater than `confidence_threshold`, reset to 0
otherwise, and left untouched while the cooldown blocks — has reached
`consecutive_empty_required`; the in-progress flag is not consulted (that
guard lives in `dispense_snack`).  In the aws variant the gate is exactly
Empty ∧ confidence ≥ threshold ∧ elapsed ≥ interval. -/
theorem should_dispense_characterization (s : SnackBotComponent.SBState)
    (is_empty : Bool) (confidence t : ℚ) :
    ((SnackBotComponent.should_dispense s is_empty confidence t).2 = true ↔
      (t - s.last_dispense_time ≥ s.min_dispense_interval ∧
        (if is_empty = true ∧ confidence > s.confidence_threshold then
            s.consecutive_empty_count + 1
          else 0) ≥ s.consecutive_empty_required)) ∧
    (∀ b : Bool,
      SnackBotComponent.should_dispense { s with is_dispensing := b } is_empty confidence t =
        ({ (SnackBotComponent.should_dispense s is_empty confidence t).1 with
              is_dispensing := b },
          (SnackBotComponent.should_dispense s is_empty confidence t).2)) ∧
    (∀ (e : Bool) (c th now last mi : ℚ),
      AwsMain.dispenseGate e c th now last mi = true ↔
        (e = true ∧ c ≥ th ∧ now - last ≥ mi)) := by
  refine ⟨?_, ?_, ?_⟩
  · by_cases hI : t - s.last_dispense_time < s.min_dispense_interval
    · simp [SnackBotComponent.should_dispense, hI, not_le.mpr hI]
    · by_cases he : is_empty <;>
        by_cases hc : confidence > s.confidence_threshold <;>
          simp [SnackBotComponent.should_dispense, hI, he, hc, not_lt.mp hI]
  · intro b
    by_cases hI : t - s.last_dispense_time < s.min_dispense_interval <;>
      by_cases he : is_empty <;>
        by_cases hc : confidence > s.confidence_threshold <;>
          simp [SnackBotComponent.should_dispense, hI, he, hc]
  · intro e c th now last mi
    by_cases he : e <;> simp [AwsMain.dispenseGate, he]

/-- **C4 counterexample.** After a dispense completed at t = 0 (so the
consecutive-empty counter was reset to 0), a dispense request at
t = 31 s with state Empty and confidence 0.95 is NOT permitted by the
Greengrass component the claim's sources cite: the counter only reaches
1 of the required 2. -/
theorem cooldown_scenario_counterexample :
    (SnackBotComponent.should_dispense ⟨0, 30, 7/10, 2, 0, false⟩ true (95/100) 31).2 =
      false := by
  norm_num [SnackBotComponent.should_dispense]

/-- **C4 amended.** With `min_dispense_interval = 30` and a dispense
completed at t = 0: the request at t = 10 s (Empty, confidence 0.95) is
denied in both variants; at t = 31 s the aws variant permits, while the
Greengrass component denies the first post-cooldown check (its
consecutive-empty counter reaches only 1 of the required 2) and permits
the second consecutive Empty check (e.g. at t = 33 s). -/
theorem cooldown_scenario_amended :
    (SnackBotComponent.should_dispense ⟨0, 30, 7/10, 2, 0, false⟩ true (95/100) 10) =
      (⟨0, 30, 7/10, 2, 0, false⟩, false) ∧
    AwsMain.dispenseGate true (95/100) (7/10) 10 0 30 = false ∧
    AwsMain.dispenseGate true (95/100) (7/10) 31 0 30 = true ∧
    (SnackBotComponent.should_dispense ⟨0, 30, 7/10, 2, 0, false⟩ true (95/100) 31) =
      (⟨0, 30, 7/10, 2, 1, false⟩, false) ∧
    (SnackBotComponent.should_dispense ⟨0, 30, 7/10, 2, 1, false⟩ true (95/100) 33).2 =
      true := by
  refine ⟨?_, ?_, ?_, ?_, ?_⟩ <;>
    norm_num [SnackBotComponent.should_dispense, AwsMain.dispenseGate, Prod.ext_iff]

namespace Telemetry

/-- One observable action of the retrying publish / connect loops: an
attempt with its index and outcome, or a `time.sleep` pause of the given
seconds. -/
inductive RetryEv
  | attempt (n : Nat) (ok : Bool)
  | pause (d : ℚ)
deriving DecidableEq, Repr

/-- Recognizer for attempt events. -/
def isAttempt : RetryEv → Bool
  | RetryEv.attempt _ _ => true
  | _ => false

/-- `MAX_PUBLISH_RETRIES` (src/src/vision/bowl_state_detector.py line
123; src/src/detector/bowl_state_detector.py line 261). -/
def MAX_PUBLISH_RETRIES : Nat := 3

/-- The body of `for attempt in range(MAX_PUBLISH_RETRIES)` in
`publish_state` (src/src/vision/bowl_state_detector.py lines 138-155 and
src/src/detector/bowl_state_detector.py lines 279-293): on a successful
attempt return `True` immediately; on failure sleep 1 s unless this was
the final attempt; after the loop return `False`.  `outcome k` is the
success of the k-th publish attempt. -/
def publishAttempts (outcome : Nat → Bool) : List Nat → List RetryEv × Bool
  | [] => ([], false)
  | a :: rest =>
      if outcome a then ([RetryEv.attempt a true], true)
      else
        let r := publishAttempts outcome rest
        (RetryEv.attempt a false ::
          (if a < MAX_PUBLISH_RETRIES - 1 then RetryEv.pause 1 :: r.1 else r.1),
          r.2)

/-- `publish_state`, as the trace of attempts/pauses it performs and the
boolean it returns. -/
def publish_state (outcome : Nat → Bool) : List RetryEv × Bool :=
  publishAttempts outcome (List.range MAX_PUBLISH_RETRIES)

/-- `MAX_RECONNECT_ATTEMPTS` and `RETRY_INTERVAL` of `get_ipc_client`
(src/src/vision/bowl_state_detector.py lines 102-103). -/
def MAX_RECONNECT_ATTEMPTS : Nat := 5

/-- Fixed 2 s pause between reconnect attempts. -/
def RETRY_INTERVAL : ℚ := 2

/-- The body of `for attempt in range(MAX_RECONNECT_ATTEMPTS)` in
`get_ipc_client` (lines 105-119): return the new client on the first
successful `connect`; otherwise sleep `RETRY_INTERVAL` unless this was
the final attempt; when the loop exhausts, raise `ConnectionError`
(result `false`). -/
def connectAttempts (outcome : Nat → Bool) : List Nat → List RetryEv × Bool
  | [] => ([], false)
  | a :: rest =>
      if outcome a then ([RetryEv.attempt a true], true)
      else
        let r := connectAttempts outcome rest
        (RetryEv.attempt a false ::
          (if a < MAX_RECONNECT_ATTEMPTS - 1 then RetryEv.pause RETRY_INTERVAL :: r.1
           else r.1),
          r.2)

/-- `get_ipc_client`: its attempt/pause trace and whether a client was
obtained (`false` = `ConnectionError` raised after exhaustion). -/
def get_ipc_client (outcome : Nat → Bool) : List RetryEv × Bool :=
  connectAttempts outcome (List.range MAX_RECONNECT_ATTEMPTS)

/-- `MAX_CONSECUTIVE_FAILURES` (src/src/vision/bowl_state_detector.py
line 165). -/
def MAX_CONSECUTIVE_FAILURES : Nat := 3

/-- The publisher session of `main`: whether `ipc_client` currently holds
a handle, and the consecutive-publish-failure counter. -/
structure PubSession where
  hasClient : Bool
  consecutive_failures : Nat
deriving DecidableEq, Repr

/-- The failure bookkeeping after one `publish_state` call in the main
loop (src/src/vision/bowl_state_detector.py lines 185-196; identically
src/src/detector/bowl_state_detector.py lines 337-345): success resets
the counter to 0; a failure increments it, and when it reaches
`MAX_CONSECUTIVE_FAILURES` the client handle is discarded
(`ipc_client = None`) and the counter reset to 0. -/
def afterPublish (s : PubSession) (publish_ok : Bool) : PubSession :=
  if publish_ok then { s with consecutive_failures := 0 }
  else
    let f := s.consecutive_failures + 1
    if f ≥ MAX_CONSECUTIVE_FAILURES then { hasClient := false, consecutive_failures := 0 }
    else { s with consecutive_failures := f }

/-- Top of each main-loop iteration (lines 176-177): reconnect via
`get_ipc_client` only when the handle was discarded; `none` models the
`ConnectionError` escaping when all reconnect attempts fail. -/
def ensureClient (s : PubSession) (outcome : Nat → Bool) :
    List RetryEv × Option PubSession :=
  if s.hasClient then ([], some s)
  else
    let r := get_ipc_client outcome
    (r.1, if r.2 then some { s with hasClient := true } else none)

end Telemetry

/-- **C6.** `publish_state` performs at most `MAX_PUBLISH_RETRIES` (3)
publish attempts with a fixed 1 s pause between consecutive attempts,
returns success immediately after the first attempt that succeeds, and
returns failure only after all three attempts have failed — shown by the
complete evaluation of its trace on every outcome pattern, plus the
attempt-count bound. -/
theorem publish_retry_protocol (outcome : Nat → Bool) :
    Telemetry.publish_state outcome =
      (if outcome 0 then ([Telemetry.RetryEv.attempt 0 true], true)
       else if outcome 1 then
         ([Telemetry.RetryEv.attempt 0 false, Telemetry.RetryEv.pause 1,
           Telemetry.RetryEv.attempt 1 true], true)
       else if outcome 2 then
         ([Telemetry.RetryEv.attempt 0 false, Telemetry.RetryEv.pause 1,
           Telemetry.RetryEv.attempt 1 false, Telemetry.RetryEv.pause 1,
           Telemetry.RetryEv.attempt 2 true], true)
       else
         ([Telemetry.RetryEv.attempt 0 false, Telemetry.RetryEv.pause 1,
           Telemetry.RetryEv.attempt 1 false, Telemetry.RetryEv.pause 1,
           Telemetry.RetryEv.attempt 2 false], false)) ∧
    ((Telemetry.publish_state outcome).1.countP Telemetry.isAttempt ≤
      Telemetry.MAX_PUBLISH_RETRIES) := by
  have hr : List.range Telemetry.MAX_PUBLISH_RETRIES = [0, 1, 2] := by decide
  constructor
  · rcases h0 : outcome 0 <;> rcases h1 : outcome 1 <;> rcases h2 : outcome 2 <;>
      simp [Telemetry.publish_state, hr, Telemetry.publishAttempts, h0, h1, h2,
        Telemetry.MAX_PUBLISH_RETRIES]
  · rcases h0 : outcome 0 <;> rcases h1 : outcome 1 <;> rcases h2 : outcome 2 <;>
      simp [Telemetry.publish_state, hr, Telemetry.publishAttempts, h0, h1, h2,
        Telemetry.MAX_PUBLISH_RETRIES, Telemetry.isAttempt]

/-- **C7.** When the consecutive-failure counter reaches
`MAX_CONSECUTIVE_FAILURES` (3) the client handle is discarded and the
counter reset to 0; below the threshold a failure only increments the
counter and keeps the handle; any successful publish resets the counter;
a reconnect is attempted only while the handle is discarded (so exactly
one reconnect follows a discard); and `get_ipc_client` makes up to
`MAX_RECONNECT_ATTEMPTS` (5) attempts spaced `RETRY_INTERVAL` (2) s
apart, surfacing `ConnectionError` (`none` from `ensureClient`) iff all
five fail.  Includes the spec scenario: three straight failures discard
the handle once, and the next success leaves the counter at 0. -/
lemma get_ipc_client_ok_iff (outcome : Nat → Bool) :
    (Telemetry.get_ipc_client outcome).2 =
      (outcome 0 || outcome 1 || outcome 2 || outcome 3 || outcome 4) := by
  have hr : List.range Telemetry.MAX_RECONNECT_ATTEMPTS = [0, 1, 2, 3, 4] := by decide
  rcases h0 : outcome 0 <;> rcases h1 : outcome 1 <;> rcases h2 : outcome 2 <;>
    rcases h3 : outcome 3 <;> rcases h4 : outcome 4 <;>
      simp [Telemetry.get_ipc_client, hr, Telemetry.connectAttempts, h0, h1, h2, h3, h4]

theorem reconnect_protocol (s : Telemetry.PubSession) (outcome : Nat → Bool) :
    (Telemetry.afterPublish s true = { s with consecutive_failures := 0 }) ∧
    (Telemetry.MAX_CONSECUTIVE_FAILURES ≤ s.consecutive_failures + 1 →
      Telemetry.afterPublish s false = ⟨false, 0⟩) ∧
    (s.consecutive_failures + 1 < Telemetry.MAX_CONSECUTIVE_FAILURES →
      Telemetry.afterPublish s false =
        { s with consecutive_failures := s.consecutive_failures + 1 }) ∧
    (s.hasClient = true → Telemetry.ensureClient s outcome = ([], some s)) ∧
    ((Telemetry.get_ipc_client outcome).2 = false ↔
      (∀ k < Telemetry.MAX_RECONNECT_ATTEMPTS, outcome k = false)) ∧
    ((Telemetry.get_ipc_client outcome).1.countP Telemetry.isAttempt ≤
      Telemetry.MAX_RECONNECT_ATTEMPTS) ∧
    (s.hasClient = false → (∀ k, outcome k = false) →
      (Telemetry.ensureClient s outcome).2 = none) ∧
    ((∀ k, outcome k = false) →
      (Telemetry.get_ipc_client outcome).1 =
        [Telemetry.RetryEv.attempt 0 false, Telemetry.RetryEv.pause 2,
         Telemetry.RetryEv.attempt 1 false, Telemetry.RetryEv.pause 2,
         Telemetry.RetryEv.attempt 2 false, Telemetry.RetryEv.pause 2,
         Telemetry.RetryEv.attempt 3 false, Telemetry.RetryEv.pause 2,
         Telemetry.RetryEv.attempt 4 false]) ∧
    (List.foldl Telemetry.afterPublish ⟨true, 0⟩ [false, false, false] = ⟨false, 0⟩ ∧
      (List.foldl Telemetry.afterPublish ⟨false, 0⟩ [true]).consecutive_failures = 0) := by
  have hr : List.range Telemetry.MAX_RECONNECT_ATTEMPTS = [0, 1, 2, 3, 4] := by decide
  refine ⟨?_, ?_, ?_, ?_, ?_, ?_, ?_, ?_, ?_⟩
  · simp [Telemetry.afterPublish]
  · intro h
    simp only [Telemetry.MAX_CONSECUTIVE_FAILURES] at h
    simp [Telemetry.afterPublish, Telemetry.MAX_CONSECUTIVE_FAILURES]
    omega
  · intro h
    simp only [Telemetry.afterPublish, if_neg (Bool.false_ne_true)]
    simp [Telemetry.MAX_CONSECUTIVE_FAILURES] at h ⊢
    omega
  · intro h
    simp [Telemetry.ensureClient, h]
  · rw [get_ipc_client_ok_iff]
    constructor
    · intro h k hk
      simp only [Bool.or_eq_false_iff] at h
      simp only [Telemetry.MAX_RECONNECT_ATTEMPTS] at hk
      interval_cases k <;> tauto
    · intro h
      have h0 := h 0 (by decide)
      have h1 := h 1 (by decide)
      have h2 := h 2 (by decide)
      have h3 := h 3 (by decide)
      have h4 := h 4 (by decide)
      simp [h0, h1, h2, h3, h4]
  · rcases h0 : outcome 0 <;> rcases h1 : outcome 1 <;> rcases h2 : outcome 2 <;>
      rcases h3 : outcome 3 <;> rcases h4 : outcome 4 <;>
        simp [Telemetry.get_ipc_client, hr, Telemetry.connectAttempts, h0, h1, h2, h3, h4,
          Telemetry.MAX_RECONNECT_ATTEMPTS, Telemetry.isAttempt]
  · intro hc hall
    simp [Telemetry.ensureClient, hc, Telemetry.get_ipc_client, hr,
      Telemetry.connectAttempts, hall, Telemetry.MAX_RECONNECT_ATTEMPTS]
  · intro hall
    simp [Telemetry.get_ipc_client, hr, Telemetry.connectAttempts, hall,
      Telemetry.MAX_RECONNECT_ATTEMPTS, Telemetry.RETRY_INTERVAL]
  · constructor <;> simp [Telemetry.afterPublish, Telemetry.MAX_CONSECUTIVE_FAILURES]

/-- **C7 witness.** Concrete instance: session with two prior failures
and a live handle, connect attempts always failing. -/
theorem reconnect_protocol_witness :
    (Telemetry.afterPublish ⟨true, 2⟩ true = { Telemetry.PubSession.mk true 2 with
        consecutive_failures := 0 }) ∧
    (Telemetry.MAX_CONSECUTIVE_FAILURES ≤ 2 + 1 →
      Telemetry.afterPublish ⟨true, 2⟩ false = ⟨false, 0⟩) ∧
    (2 + 1 < Telemetry.MAX_CONSECUTIVE_FAILURES →
      Telemetry.afterPublish ⟨true, 2⟩ false = { Telemetry.PubSession.mk true 2 with
        consecutive_failures := 2 + 1 }) ∧
    ((Telemetry.PubSession.mk true 2).hasClient = true →
      Telemetry.ensureClient ⟨true, 2⟩ (fun _ => false) = ([], some ⟨true, 2⟩)) ∧
    ((Telemetry.get_ipc_client (fun _ => false)).2 = false ↔
      (∀ k < Telemetry.MAX_RECONNECT_ATTEMPTS, (fun (_ : Nat) => false) k = false)) ∧
    ((Telemetry.get_ipc_client (fun _ => false)).1.countP Telemetry.isAttempt ≤
      Telemetry.MAX_RECONNECT_ATTEMPTS) ∧
    ((Telemetry.PubSession.mk true 2).hasClient = false →
      (∀ k, (fun (_ : Nat) => false) k = false) →
      (Telemetry.ensureClient ⟨true, 2⟩ (fun _ => false)).2 = none) ∧
    ((∀ k, (fun (_ : Nat) => false) k = false) →
      (Telemetry.get_ipc_client (fun _ => false)).1 =
        [Telemetry.RetryEv.attempt 0 false, Telemetry.RetryEv.pause 2,
         Telemetry.RetryEv.attempt 1 false, Telemetry.RetryEv.pause 2,
         Telemetry.RetryEv.attempt 2 false, Telemetry.RetryEv.pause 2,
         Telemetry.RetryEv.attempt 3 false, Telemetry.RetryEv.pause 2,
         Telemetry.RetryEv.attempt 4 false]) ∧
    (List.foldl Telemetry.afterPublish ⟨true, 0⟩ [false, false, false] = ⟨false, 0⟩ ∧
      (List.foldl Telemetry.afterPublish ⟨false, 0⟩ [true]).consecutive_failures = 0) :=
  reconnect_protocol ⟨true, 2⟩ (fun _ => false)

namespace BowlStateAndHopperController

/-- The development flag of the combined detector/hopper component,
hard-coded at module level (src/src/detector/bowl_state_detector.py line
41): `DEBUG_MODE = True`. -/
def DEBUG_MODE : Bool := true

/-- `CONFIDENCE_THRESHOLD` (line 54). -/
def CONFIDENCE_THRESHOLD : ℚ := 7 / 10

/-- The decision core of `BowlStateAndHopperController.is_bowl_empty`
(lines 205-241): `none` models a failed capture or a model-inference
exception (the code then returns `(False, 0.0)`); for a prediction
vector `(p_empty, p_full)` the code computes
`is_empty = prediction[0] > CONFIDENCE_THRESHOLD` and
`confidence = max(prediction)`, and then, when `DEBUG_MODE` is set,
overrides `is_empty` with `True` before returning. -/
def is_bowl_empty (prediction : Option (ℚ × ℚ)) : Bool × ℚ :=
  match prediction with
  | none => (false, 0)
  | some p =>
      let is_empty : Bool := decide (p.1 > CONFIDENCE_THRESHOLD)
      let confidence := max p.1 p.2
      let is_empty := if DEBUG_MODE then true else is_empty
      (is_empty, confidence)

/-- The dispense decision of the `run` loop (lines 346-353): in
`DEBUG_MODE` dispense unconditionally every cycle; otherwise dispense iff
the reading was empty with confidence strictly above the threshold. -/
def runDispenseDecision (is_empty : Bool) (conf : ℚ) : Bool :=
  if DEBUG_MODE then true
  else is_empty && decide (conf > CONFIDENCE_THRESHOLD)

end BowlStateAndHopperController

/-- **C8 counterexample.** In the build under src/src/detector the
forced-debug override is hard-coded on: `DEBUG_MODE = True` at module
level, the bowl-state check reports Empty even for a prediction far
below the threshold (p_empty = 0.1), and the control loop dispenses even
when the reading says not-empty — refuting "defaults to off and is never
hard-coded on". -/
theorem debug_override_counterexample :
    BowlStateAndHopperController.DEBUG_MODE = true ∧
    (BowlStateAndHopperController.is_bowl_empty (some (1/10, 9/10))).1 = true ∧
    BowlStateAndHopperController.runDispenseDecision false 0 = true :=
  ⟨rfl, rfl, rfl⟩

/-- **C8 amended.** The forced-debug override exists only in the
combined detector/hopper component, where it is a hard-coded module
constant `DEBUG_MODE = True` rather than a configuration flag: while it
is set, `is_bowl_empty` reports Empty for every successfully classified
frame (the confidence is still the model's `max(prediction)`), and the
`run` loop triggers a dispense on every cycle regardless of the reading. -/
theorem debug_override_behavior :
    BowlStateAndHopperController.DEBUG_MODE = true ∧
    (∀ p : ℚ × ℚ, (BowlStateAndHopperController.is_bowl_empty (some p)).1 = true) ∧
    (∀ p : ℚ × ℚ,
      (BowlStateAndHopperController.is_bowl_empty (some p)).2 = max p.1 p.2) ∧
    (∀ (e : Bool) (c : ℚ), BowlStateAndHopperController.runDispenseDecision e c = true) :=
  ⟨rfl, fun _ => rfl, fun _ => rfl, fun _ _ => rfl⟩
